import Mathlib

/-!
Shallow embedding of the homebridge-smartthings-ac plugin core, translated
from its TypeScript sources: the OAuth token manager (`oauthManager.ts`), the
interactive OAuth callback handler (`oauthSetup.ts`), and the two device
adapter layers (the cached/deduplicating adapter and the conflict-resolving
adapter in `src/deviceAdapter.ts`).  Asynchronous network and filesystem
effects are passed in explicitly as parameters describing their outcomes;
times are the integer millisecond clock values the code reads from
`Date.now()`.  JavaScript strings that the code only ever tests for
truthiness are modelled with the empty string standing for a missing or
falsy value.
-/

deriving instance DecidableEq for Except

/-- JavaScript truthiness of an optional string: `undefined` and the empty
string are falsy, every other string is truthy. -/
def jsTruthyStr : Option String → Bool
  | none => false
  | some s => s ≠ ""

/-- JavaScript values appearing in command argument lists
(TypeScript type `(string | number)[]`); numbers are modelled as rationals. -/
inductive JsValue where
  | str (s : String)
  | num (q : Rat)
  deriving DecidableEq, Repr

namespace OAuthMgr

/-- Credential set held by the token manager (interface `OAuthTokens` of
`oauthManager.ts`).  A missing `refresh_token` field is modelled by the empty
string, which the code treats identically (falsiness). -/
structure OAuthTokens where
  access_token : String
  refresh_token : String
  expires_in : Int
  scope : String
  token_type : String
  expires_at : Option Int
  deriving DecidableEq, Repr

/-- In-memory state of the `OAuthManager` class: the nullable `tokens` field
and the `tokenExpiry` field (initialised to 0). -/
structure ManagerState where
  tokens : Option OAuthTokens
  tokenExpiry : Int
  deriving DecidableEq, Repr

/-- Body of a 2xx response from the vendor token endpoint
(`response.data`); an absent `refresh_token` field is the empty string. -/
structure TokenResponse where
  access_token : String
  refresh_token : String
  expires_in : Int
  scope : String
  token_type : String
  deriving DecidableEq, Repr

/-- Errors thrown by the token manager.  `httpError` carries the HTTP status
of a rejected token-endpoint request when one is available. -/
inductive TokenError where
  | noTokens
  | noRefreshToken
  | httpError (status : Option Int)
  | noAccessTokenInResponse
  deriving DecidableEq, Repr

/-- The 15 minute safety margin (900000 ms) used by
`getValidAccessToken`. -/
def safetyMarginMs : Int := 900000

/-- Model of `saveTokens`: its whole body sits in a try/catch whose handler only
logs, so it never throws - not even when there are no tokens to save
(that internal throw is caught by the same handler).  `writeOk` is the
outcome of the `fs.writeFile` call; the returned flag records whether the
credential file was actually written. -/
def saveTokens (tokens : Option OAuthTokens) (writeOk : Bool) : Bool :=
  match tokens with
  | none => false
  | some _ => writeOk

/-- Model of `refreshAccessToken`: guard on a usable refresh token, POST the refresh
grant (`resp` is the outcome: an HTTP failure status or a response body),
validate `access_token`, install the new token set (keeping the old refresh
token when the response carries none), set
`expires_at = Date.now() + expires_in * 1000`, mirror it into `tokenExpiry`,
and call `saveTokens` (whose failure is swallowed).  Returns the new state
and the persisted flag. -/
def refreshAccessToken (st : ManagerState) (now : Int)
    (resp : Except (Option Int) TokenResponse) (writeOk : Bool) :
    Except TokenError (ManagerState × Bool) :=
  match st.tokens with
  | none => .error .noRefreshToken
  | some tk =>
    if tk.refresh_token = "" then .error .noRefreshToken
    else
      match resp with
      | .error status => .error (.httpError status)
      | .ok r =>
        if r.access_token = "" then .error .noAccessTokenInResponse
        else
          let newTokens : OAuthTokens :=
            { access_token := r.access_token
              refresh_token :=
                if r.refresh_token = "" then tk.refresh_token else r.refresh_token
              expires_in := r.expires_in
              scope := r.scope
              token_type := r.token_type
              expires_at := some (now + r.expires_in * 1000) }
          .ok ({ tokens := some newTokens, tokenExpiry := now + r.expires_in * 1000 },
               saveTokens (some newTokens) writeOk)

/-- Model of `getValidAccessToken`: fail when no credential set was ever established;
refresh when `tokenExpiry - Date.now() <= 900000`; finally return the (then
current) access token.  The third component of the result records whether a
refresh was performed before returning. -/
def getValidAccessToken (st : ManagerState) (now : Int)
    (resp : Except (Option Int) TokenResponse) (writeOk : Bool) :
    Except TokenError (String × ManagerState × Bool) :=
  match st.tokens with
  | none => .error .noTokens
  | some tk =>
    if st.tokenExpiry - now ≤ safetyMarginMs then
      match refreshAccessToken st now resp writeOk with
      | .error e => .error e
      | .ok (st2, _) =>
        match st2.tokens with
        | some tk2 => .ok (tk2.access_token, st2, true)
        | none => .error .noTokens -- unreachable: a successful refresh installs tokens
    else .ok (tk.access_token, st, false)

/-- Model of `exchangeCodeForTokens`: POST the authorization-code grant, store
`response.data` wholesale as the token set, compute `expires_at`, persist via
`saveTokens` (failure swallowed).  The previous state is overwritten and not
consulted. -/
def exchangeCodeForTokens (now : Int)
    (resp : Except (Option Int) TokenResponse) (writeOk : Bool) :
    Except TokenError (ManagerState × Bool) :=
  match resp with
  | .error status => .error (.httpError status)
  | .ok r =>
    let newTokens : OAuthTokens :=
      { access_token := r.access_token
        refresh_token := r.refresh_token
        expires_in := r.expires_in
        scope := r.scope
        token_type := r.token_type
        expires_at := some (now + r.expires_in * 1000) }
    .ok ({ tokens := some newTokens, tokenExpiry := now + r.expires_in * 1000 },
         saveTokens (some newTokens) writeOk)

/-- Content of the persisted credential file as `loadTokens` sees it:
absent (`fs.access` throws), unreadable (read or `JSON.parse` throws), or a
parsed JSON value (which can be `null`). -/
inductive StoredFile where
  | absent
  | unreadable
  | parsed (t : Option OAuthTokens)
  deriving DecidableEq, Repr

/-- JavaScript truthiness of the optional numeric `expires_at` field:
`undefined` and 0 are falsy. -/
def jsTruthyInt : Option Int → Bool
  | none => false
  | some n => n ≠ 0

/-- Model of `loadTokens`: tolerate an absent or unreadable file (state unchanged);
on a parsed record, adopt a truthy `expires_at` as `tokenExpiry`, otherwise
(legacy format) derive it from `expires_in`, rewrite the record and save it
back.  Returns the new state and whether the file was rewritten. -/
def loadTokens (st : ManagerState) (file : StoredFile) (now : Int)
    (writeOk : Bool) : ManagerState × Bool :=
  match file with
  | .absent => (st, false)
  | .unreadable => (st, false)
  | .parsed none => ({ st with tokens := none }, false)
  | .parsed (some t) =>
    if jsTruthyInt t.expires_at then
      ({ tokens := some t, tokenExpiry := t.expires_at.getD 0 }, false)
    else
      let expiry := now + t.expires_in * 1000
      let t2 : OAuthTokens := { t with expires_at := some expiry }
      ({ tokens := some t2, tokenExpiry := expiry }, saveTokens (some t2) writeOk)

/-- Model of `clearTokens`: `fs.unlink` then reset the in-memory fields, all inside a
try whose catch only logs - so when the unlink throws (`unlinkOk = false`,
e.g. the file does not exist) the in-memory reset is skipped.  Returns the
new state and whether the file was deleted. -/
def clearTokens (st : ManagerState) (unlinkOk : Bool) : ManagerState × Bool :=
  if unlinkOk then ({ tokens := none, tokenExpiry := 0 }, true)
  else (st, false)

end OAuthMgr

namespace Setup

/-- Query parameters of the request hitting the local OAuth callback
listener (`oauthSetup.ts`). -/
structure CallbackQuery where
  code : Option String
  state : Option String
  error : Option String
  deriving DecidableEq, Repr

/-- How the promise returned by `startAuthorizationFlow` is settled by one
handled request, if at all. -/
inductive Settle where
  | resolved
  | rejectedVendorError
  | rejectedStateMismatch
  | rejectedNoCode
  | rejectedException
  deriving DecidableEq, Repr

/-- Observable outcome of the request handler: the HTTP status written,
whether the handler closed the listener, and how it settled the flow
promise. -/
structure HandlerResult where
  httpStatus : Nat
  serverClosed : Bool
  settle : Option Settle
  deriving DecidableEq, Repr

/-- The request handler of `startAuthorizationFlow`: a non-callback path
gets a 404; a truthy vendor `error` parameter, a state mismatch and a falsy
`code` each get a 400 error page and reject; then the code is exchanged
(`exchange` is the outcome of `oauthManager.exchangeCodeForTokens`), after
which the success page is served and the server closed - an exchange failure
lands in the outer catch, which serves a 500 page and rejects.  Only the
success path executes `this.server?.close()`. -/
def handleCallback (path : String) (q : CallbackQuery) (expectedState : String)
    (exchange : Except Unit Unit) : HandlerResult :=
  if path ≠ "/oauth/callback" then
    { httpStatus := 404, serverClosed := false, settle := none }
  else if jsTruthyStr q.error then
    { httpStatus := 400, serverClosed := false, settle := some .rejectedVendorError }
  else if q.state ≠ some expectedState then
    { httpStatus := 400, serverClosed := false, settle := some .rejectedStateMismatch }
  else if !jsTruthyStr q.code then
    { httpStatus := 400, serverClosed := false, settle := some .rejectedNoCode }
  else
    match exchange with
    | .ok _ => { httpStatus := 200, serverClosed := true, settle := some .resolved }
    | .error _ =>
      { httpStatus := 500, serverClosed := false, settle := some .rejectedException }

end Setup

namespace CachedAdapter

/-- Attribute values of the main component of a device status response that
the cached adapter's `getStatus` extracts (each chain of optional accesses
can yield `undefined`). -/
structure MainComponent where
  airConditionerMode : Option String
  coolingSetpoint : Option Rat
  temperature : Option Rat
  humidity : Option Rat
  switchValue : Option String
  deriving DecidableEq, Repr

/-- The `PlatformStatusInfo` record built by `getStatus`. -/
structure PlatformStatusInfo where
  mode : Option String
  targetTemperature : Option Rat
  currentTemperature : Option Rat
  currentHumidity : Option Rat
  active : Bool
  deriving DecidableEq, Repr

/-- Build the status record from the (possibly missing) main component,
as the body of `getStatus` does; a missing component makes every optional
chain `undefined` and `active` false. -/
def toStatusInfo : Option MainComponent → PlatformStatusInfo
  | none =>
    { mode := none, targetTemperature := none, currentTemperature := none,
      currentHumidity := none, active := false }
  | some m =>
    { mode := m.airConditionerMode, targetTemperature := m.coolingSetpoint,
      currentTemperature := m.temperature, currentHumidity := m.humidity,
      active := m.switchValue == some "on" }

/-- The `lastCommand` record of the adapter. -/
structure LastCommand where
  command : String
  capability : String
  timestamp : Int
  deriving DecidableEq, Repr

/-- Mutable fields of the cached `DeviceAdapter`. -/
structure AdapterState where
  lastCommandTime : Int
  isExecutingCommand : Bool
  lastCommand : Option LastCommand
  lastStatusUpdate : Int
  cachedStatus : Option PlatformStatusInfo
  deriving DecidableEq, Repr

/-- Field initialisers of the adapter class. -/
def initialState : AdapterState :=
  { lastCommandTime := 0, isExecutingCommand := false, lastCommand := none,
    lastStatusUpdate := 0, cachedStatus := none }

def STATUS_REFRESH_INTERVAL : Int := 5000

def MAX_RETRIES : Nat := 3

def RETRY_DELAY : Int := 1000

def COMMAND_DEDUPLICATION_WINDOW : Int := 2000

/-- Model of `getStatus` of the cached adapter: serve the cached snapshot while it is
younger than the freshness window; otherwise fetch (the parameter `fetch` is
the outcome of the status request, where an error also covers a response
without components); on a fetch failure fall back to the cached snapshot if
one exists, else propagate the error. -/
def getStatus (st : AdapterState) (now : Int)
    (fetch : Except Unit (Option MainComponent)) :
    Except Unit (PlatformStatusInfo × AdapterState) :=
  match st.cachedStatus with
  | some cached =>
    if now - st.lastStatusUpdate < STATUS_REFRESH_INTERVAL then .ok (cached, st)
    else
      match fetch with
      | .ok mc =>
        let info := toStatusInfo mc
        .ok (info, { st with cachedStatus := some info, lastStatusUpdate := now })
      | .error _ => .ok (cached, st)
  | none =>
    match fetch with
    | .ok mc =>
      let info := toStatusInfo mc
      .ok (info, { st with cachedStatus := some info, lastStatusUpdate := now })
    | .error _ => .error ()

/-- Outcome of one attempt of the retry loop: the endpoint resolved with
some status string, or the request was rejected with an HTTP status, or
`getClient` threw before any dispatch, or the request was rejected without a
response object. -/
inductive AttemptOutcome where
  | success
  | failStatus (s : String)
  | httpError (status : Int)
  | clientError
  | otherError
  deriving DecidableEq, Repr

/-- Number of calls to the command endpoint a single attempt performs:
every outcome except a `getClient` failure reaches the endpoint. -/
def dispatchesOf : AttemptOutcome → Nat
  | .clientError => 0
  | _ => 1

/-- Errors `executeMainCommand` can throw. -/
inductive RunError where
  | commandFailed (last : AttemptOutcome)
  | noDevice
  deriving DecidableEq, Repr

/-- Result of the retry loop: whether it returned true (executed), returned
false (409 path) or threw the last error, together with the number of
dispatches to the command endpoint and the backoff delays slept. -/
structure RetryResult where
  result : Except RunError Bool
  dispatches : Nat
  delays : List Int
  deriving DecidableEq, Repr

/-- The body of the retry loop of `executeCommandWithRetry`, indexed by the
current attempt number and the remaining attempts (fuel); `disp` and
`delays` accumulate dispatch count and backoff delays.  A success returns
true, a 409 response returns false without retrying, any other failure is
remembered as `lastError` and retried after a `RETRY_DELAY * 2 ^ (attempt - 1)`
backoff until the attempts are exhausted, whereupon the last error is
thrown.  The fuel-zero clause is never reached when starting from a positive
fuel, because the final attempt returns through the `fuel = 0` test below. -/
def retryFrom (attempts : Nat → AttemptOutcome) :
    Nat → Nat → Nat → List Int → RetryResult
  | _, 0, disp, delays =>
    { result := .error (.commandFailed .otherError), dispatches := disp,
      delays := delays.reverse }
  | attempt, fuel + 1, disp, delays =>
    let o := attempts attempt
    let disp2 := disp + dispatchesOf o
    if o = .success then
      { result := .ok true, dispatches := disp2, delays := delays.reverse }
    else if o = .httpError 409 then
      { result := .ok false, dispatches := disp2, delays := delays.reverse }
    else if fuel = 0 then
      { result := .error (.commandFailed o), dispatches := disp2,
        delays := delays.reverse }
    else
      retryFrom attempts (attempt + 1) fuel disp2
        (RETRY_DELAY * (2 : Int) ^ (attempt - 1) :: delays)

/-- Model of `executeCommandWithRetry(command, capability, commandArguments)`: up to
`MAX_RETRIES` attempts starting at attempt 1.  The request payload
parameters do not influence the control flow - the per-attempt outcomes come
from the network, here the `attempts` parameter. -/
def executeCommandWithRetry (command capability : String)
    (args : Option (List JsValue)) (attempts : Nat → AttemptOutcome) :
    RetryResult :=
  retryFrom attempts 1 MAX_RETRIES 0 []

/-- Outcomes of the network operations one `executeMainCommand` call can
perform: the device status fetch used by the switch pre-check, and the
per-attempt outcomes of the command dispatches. -/
structure CmdEnv where
  statusFetch : Except Unit (Option MainComponent)
  attempts : Nat → AttemptOutcome

/-- Result of one `executeMainCommand` call: how the promise settled, the
dispatches and backoff delays performed, and the adapter state after the
call. -/
structure ExecResult where
  result : Except RunError Unit
  dispatches : Nat
  delays : List Int
  state : AdapterState

/-- Model of `forceStatusRefresh`: invalidate the cached snapshot. -/
def forceStatusRefresh (st : AdapterState) : AdapterState :=
  { st with cachedStatus := none, lastStatusUpdate := 0 }

/-- The `finally` block of `executeMainCommand`: clear the in-flight flag,
stamp `lastCommandTime` with the current clock and record the last command
with the timestamp captured at entry.  The recorded key holds only the
command and capability - the arguments are not part of it. -/
def finallyUpdate (command capability : String) (tStart tEnd : Int)
    (st : AdapterState) : AdapterState :=
  { st with
    isExecutingCommand := false,
    lastCommandTime := tEnd,
    lastCommand := some { command := command, capability := capability, timestamp := tStart } }

/-- The deduplication test of `executeMainCommand`: same command and
capability as the recorded last command, issued within the deduplication
window.  Arguments are not compared. -/
def dedupHit (st : AdapterState) (command capability : String) (now : Int) :
    Bool :=
  match st.lastCommand with
  | none => false
  | some lc =>
    lc.command == command && lc.capability == capability &&
      decide (now - lc.timestamp < COMMAND_DEDUPLICATION_WINDOW)

/-- Model of `handleSwitchCommand`: fetch the current status (its own try/catch - a
failure only logs and proceeds); when the device already is in the requested
state, return without dispatching; otherwise run the retry loop with no
arguments, and on a normal return invalidate the cache (the extra deferred
invalidation scheduled via `setTimeout` 500 ms later is not modelled - it
only repeats the same invalidation).  A thrown retry error propagates
without the invalidation. -/
def handleSwitchCommand (st : AdapterState) (now : Int) (command : String)
    (env : CmdEnv) : ExecResult :=
  let afterCheck : AdapterState ⊕ AdapterState :=
    match getStatus st now env.statusFetch with
    | .ok (info, st1) =>
      if info.active == (command == "on") then Sum.inl st1
      else Sum.inr st1
    | .error _ => Sum.inr st
  match afterCheck with
  | Sum.inl st1 =>
    { result := .ok (), dispatches := 0, delays := [], state := st1 }
  | Sum.inr st1 =>
    let r := executeCommandWithRetry command "switch" none env.attempts
    match r.result with
    | .ok _ =>
      { result := .ok (), dispatches := r.dispatches, delays := r.delays,
        state := forceStatusRefresh st1 }
    | .error e =>
      { result := .error e, dispatches := r.dispatches, delays := r.delays,
        state := st1 }

/-- Model of `executeMainCommand` of the cached adapter: require a device id; skip
when a command is in flight; skip when the deduplication test fires (both
skips resolve successfully with state untouched); then, with the in-flight
flag set (the rate-limiting wait only delays and is not modelled as state),
either run the switch pre-check path or the plain retry path, invalidating
the cache only when the retry loop returns normally; the `finally` block
runs on every body path, also when the retry error propagates.  `tStart` is
the `Date.now()` captured for the deduplication test, `tEnd` the one read in
the `finally` block. -/
def executeMainCommand (st : AdapterState) (tStart tEnd : Int)
    (hasDeviceId : Bool) (command capability : String)
    (args : Option (List JsValue)) (env : CmdEnv) : ExecResult :=
  if !hasDeviceId then
    { result := .error .noDevice, dispatches := 0, delays := [], state := st }
  else if st.isExecutingCommand then
    { result := .ok (), dispatches := 0, delays := [], state := st }
  else if dedupHit st command capability tStart then
    { result := .ok (), dispatches := 0, delays := [], state := st }
  else
    let st0 : AdapterState := { st with isExecutingCommand := true }
    let body : ExecResult :=
      if capability == "switch" && (command == "on" || command == "off") then
        handleSwitchCommand st0 tStart command env
      else
        let r := executeCommandWithRetry command capability args env.attempts
        match r.result with
        | .ok _ =>
          { result := .ok (), dispatches := r.dispatches, delays := r.delays,
            state := forceStatusRefresh st0 }
        | .error e =>
          { result := .error e, dispatches := r.dispatches, delays := r.delays,
            state := st0 }
    { body with state := finallyUpdate command capability tStart tEnd body.state }

end CachedAdapter

namespace ConflictAdapter

/-- Attribute values of the main component that the conflict-resolving
adapter of `src/deviceAdapter.ts` inspects. -/
structure DeviceMain where
  switchValue : Option String
  acMode : Option String
  autoCleaningMode : Option String
  energySavingOperation : Option String
  coolingSetpoint : Option Rat
  temperature : Option Rat
  deriving DecidableEq, Repr

/-- Outcome of the single command dispatch: the endpoint resolved with a
status string, or the request was rejected as an axios error with an HTTP
status, or it was rejected without a response (a non-axios error). -/
inductive DispatchOutcome where
  | resolved (status : String)
  | httpError (status : Int)
  | plainError
  deriving DecidableEq, Repr

/-- Outcomes of the network operations one call can perform.  A status
result of `Except.ok none` models a response whose components or main
component are missing, making every optional access `undefined`. -/
structure CmdEnv where
  statusBefore : Except Unit (Option DeviceMain)
  clientOk : Bool
  dispatch : DispatchOutcome
  conflictStatus : Except Unit (Option DeviceMain)
  statusAfter : Except Unit (Option DeviceMain)

/-- Errors thrown by `executeMainCommand` of the conflict-resolving
adapter. -/
inductive CmdError where
  | noDeviceId
  | clientError
  | commandFailedStatus (s : String)
  | acModeOffConstraint
  | autoCleaningConstraint (m : String)
  | energySavingConstraint (m : String)
  | unresolvedConflict
  | authenticationFailed
  | rateLimited
  | apiError (status : Int)
  | plainError
  deriving DecidableEq, Repr

/-- The optional chain reading the switch attribute value. -/
def getSwitch : Option DeviceMain → Option String
  | none => none
  | some m => m.switchValue

/-- The optional chain reading the air conditioner mode. -/
def getAcMode : Option DeviceMain → Option String
  | none => none
  | some m => m.acMode

/-- The optional chain reading the auto-cleaning mode. -/
def getAutoCleaning : Option DeviceMain → Option String
  | none => none
  | some m => m.autoCleaningMode

/-- The optional chain reading the energy-saving operation. -/
def getEnergySaving : Option DeviceMain → Option String
  | none => none
  | some m => m.energySavingOperation

/-- The optional chain reading the cooling setpoint. -/
def getSetpoint : Option DeviceMain → Option Rat
  | none => none
  | some m => m.coolingSetpoint

/-- The first command argument when it is a string at runtime
(the source casts `commandArguments?.[0] as string`; a numeric value keeps
its runtime type and compares unequal to any string). -/
def argString : List JsValue → Option String
  | .str s :: _ => some s
  | _ => none

/-- The first command argument when it is a number at runtime. -/
def argNum : List JsValue → Option Rat
  | .num q :: _ => some q
  | _ => none

/-- The 409 conflict handler of `executeMainCommand`: re-fetch the device
status; on a fetch failure fall through to the unresolved-conflict throw.
For the switch capability, a device already in the requested state resolves
successfully, a mismatched state throws a descriptive constraint error when
one of the known blocking conditions holds and otherwise resolves
optimistically.  For the air conditioner mode and cooling setpoint
capabilities the source compares the current value with the requested one
but returns successfully in both the matching and the mismatching branch.
Any other capability falls through to the unresolved-conflict throw. -/
def handle409 (command capability : String) (args : List JsValue)
    (conflictStatus : Except Unit (Option DeviceMain)) : Except CmdError Unit :=
  match conflictStatus with
  | .error _ => .error .unresolvedConflict
  | .ok cur =>
    if capability == "switch" then
      if command == "on" && getSwitch cur == some "on" then .ok ()
      else if command == "off" && getSwitch cur == some "off" then .ok ()
      else
        let acModeVal := getAcMode cur
        let autoCleaningVal := getAutoCleaning cur
        let energySavingVal := getEnergySaving cur
        if command == "on" && acModeVal == some "off" then
          .error .acModeOffConstraint
        else if command == "off" && jsTruthyStr autoCleaningVal &&
            !(autoCleaningVal == some "off") then
          .error (.autoCleaningConstraint (autoCleaningVal.getD ""))
        else if command == "off" && jsTruthyStr energySavingVal &&
            !(energySavingVal == some "off") then
          .error (.energySavingConstraint (energySavingVal.getD ""))
        else .ok ()
    else if capability == "airConditionerMode" then .ok ()
    else if capability == "thermostatCoolingSetpoint" then .ok ()
    else .error .unresolvedConflict

/-- The sense in which the re-fetched status matches the requested end
state, for each capability the source checks: the switch value equals the
requested on/off state; the current mode strictly equals the requested one
(with `undefined === undefined` true); the current setpoint is truthy and
within 0.5 of the requested numeric setpoint. -/
def matchesRequestedEndState (command capability : String)
    (args : List JsValue) (cur : Option DeviceMain) : Bool :=
  if capability == "switch" then
    (command == "on" && getSwitch cur == some "on") ||
      (command == "off" && getSwitch cur == some "off")
  else if capability == "airConditionerMode" then
    match getAcMode cur, argString args with
    | some m, some s => m == s
    | none, none => true
    | _, _ => false
  else if capability == "thermostatCoolingSetpoint" then
    match getSetpoint cur, argNum args with
    | some t, some r => !(t == 0) && decide (|t - r| < (1 / 2 : Rat))
    | _, _ => false
  else false

/-- Model of `executeMainCommand` of the conflict-resolving adapter: require a device
id; fetch the pre-command status (its own try/catch - a failure only logs);
build the client (a failure propagates); dispatch the command; a resolved
response with a non-success status throws an error that the outer catch
rethrows unchanged; on success the post-command status fetch and comparison
are logging only.  A rejected dispatch is dissected in the catch: 409 goes
to the conflict handler, 401 becomes an authentication error, 429 a
rate-limit error, other statuses an API error, and a non-axios rejection is
rethrown. -/
def executeMainCommand (hasDeviceId : Bool) (command capability : String)
    (args : List JsValue) (env : CmdEnv) : Except CmdError Unit :=
  if !hasDeviceId then .error .noDeviceId
  else if !env.clientOk then .error .clientError
  else
    match env.dispatch with
    | .resolved status =>
      if status == "success" then .ok ()
      else .error (.commandFailedStatus status)
    | .plainError => .error .plainError
    | .httpError status =>
      if status == 409 then handle409 command capability args env.conflictStatus
      else if status == 401 then .error .authenticationFailed
      else if status == 429 then .error .rateLimited
      else .error (.apiError status)

end ConflictAdapter

/-! Theorems checking the specification claims. -/

/-- C1: for every in-memory credential set whose expiry lies more than the
15 minute safety margin after the current time, getValidAccessToken returns
the stored access token without performing a refresh (the performed-refresh
flag is false and the state is untouched); for every credential set whose
expiry is within the margin, any token it returns was obtained after
performing a refresh (the flag is true); and when no credential set was ever
established it fails with the no-tokens error. -/
theorem getValidAccessToken_spec (st : OAuthMgr.ManagerState) (now : Int)
    (resp : Except (Option Int) OAuthMgr.TokenResponse) (writeOk : Bool) :
    (∀ tk, st.tokens = some tk → OAuthMgr.safetyMarginMs < st.tokenExpiry - now →
      OAuthMgr.getValidAccessToken st now resp writeOk =
        .ok (tk.access_token, st, false)) ∧
    (st.tokenExpiry - now ≤ OAuthMgr.safetyMarginMs →
      ∀ out, OAuthMgr.getValidAccessToken st now resp writeOk = .ok out →
        out.2.2 = true) ∧
    (st.tokens = none →
      OAuthMgr.getValidAccessToken st now resp writeOk = .error .noTokens) := by
  refine ⟨?_, ?_, ?_⟩
  · intro tk htk h
    simp [OAuthMgr.getValidAccessToken, htk, not_le.mpr h]
  · intro h out hout
    cases hst : st.tokens with
    | none => simp [OAuthMgr.getValidAccessToken, hst] at hout
    | some tk =>
      simp only [OAuthMgr.getValidAccessToken, hst, if_pos h] at hout
      cases hr : OAuthMgr.refreshAccessToken st now resp writeOk with
      | error e => simp [hr] at hout
      | ok p =>
        simp only [hr] at hout
        cases hp : p.1.tokens with
        | none => simp [hp] at hout
        | some tk2 =>
          simp only [hp] at hout
          cases hout
          rfl
  · intro h
    simp [OAuthMgr.getValidAccessToken, h]

/-- Witness for C1 at concrete credential sets: a set expiring well beyond
the margin is served unrefreshed, a set expiring at the margin is served
only after a refresh, and the empty state fails. -/
theorem getValidAccessToken_spec_witness :
    OAuthMgr.getValidAccessToken
        { tokens := some { access_token := "tokA", refresh_token := "tokR", expires_in := 86400,
                           scope := "devices", token_type := "Bearer", expires_at := some 2000000 },
          tokenExpiry := 2000000 }
        0 (.error none) true =
      .ok ("tokA",
        { tokens := some { access_token := "tokA", refresh_token := "tokR", expires_in := 86400,
                           scope := "devices", token_type := "Bearer", expires_at := some 2000000 },
          tokenExpiry := 2000000 }, false) ∧
    (("tokB",
      ({ tokens := some { access_token := "tokB", refresh_token := "tokR", expires_in := 86400,
                          scope := "devices", token_type := "Bearer", expires_at := some 86400000 },
         tokenExpiry := 86400000 } : OAuthMgr.ManagerState), true) :
        String × OAuthMgr.ManagerState × Bool).2.2 = true ∧
    OAuthMgr.getValidAccessToken { tokens := none, tokenExpiry := 0 } 0
        (.error none) true = .error .noTokens := by
  refine ⟨?_, ?_, ?_⟩
  · exact (getValidAccessToken_spec
        { tokens := some { access_token := "tokA", refresh_token := "tokR", expires_in := 86400,
                           scope := "devices", token_type := "Bearer", expires_at := some 2000000 },
          tokenExpiry := 2000000 }
        0 (.error none) true).1
        { access_token := "tokA", refresh_token := "tokR", expires_in := 86400,
          scope := "devices", token_type := "Bearer", expires_at := some 2000000 }
        rfl (by decide)
  · refine (getValidAccessToken_spec
        { tokens := some { access_token := "tokA", refresh_token := "tokR", expires_in := 3600,
                           scope := "devices", token_type := "Bearer", expires_at := some 900000 },
          tokenExpiry := 900000 }
        0 (.ok { access_token := "tokB", refresh_token := "", expires_in := 86400,
                 scope := "devices", token_type := "Bearer" })
        true).2.1 (by decide) _ ?_
    rfl
  · exact (getValidAccessToken_spec { tokens := none, tokenExpiry := 0 }
        0 (.error none) true).2.2 rfl

/-- C7 counterexample: a refresh performed with a valid refresh token (here
through the refresh path itself, from a state that is inside the margin and
so would be refreshed by getValidAccessToken) whose response carries a
60 second lifetime succeeds but moves the stored expiry from 900000 down to
60000: the new expires_at is not strictly greater than the previous one. -/
theorem refresh_expiry_not_monotonic_cex :
    OAuthMgr.refreshAccessToken
        { tokens := some { access_token := "tokA", refresh_token := "tokR", expires_in := 3600,
                           scope := "devices", token_type := "Bearer", expires_at := some 900000 },
          tokenExpiry := 900000 }
        0 (.ok { access_token := "tokB", refresh_token := "", expires_in := 60,
                 scope := "devices", token_type := "Bearer" }) true =
      .ok ({ tokens := some { access_token := "tokB", refresh_token := "tokR", expires_in := 60,
                              scope := "devices", token_type := "Bearer", expires_at := some 60000 },
             tokenExpiry := 60000 }, true) ∧
    ¬ (900000 : Int) < 60000 := ⟨rfl, by decide⟩

/-- C7 amended: a successful refresh sets the stored expiry to
now + expires_in * 1000; this is strictly greater than the previous expiry
whenever the refresh happens within the safety margin of the old expiry (as
every refresh triggered by getValidAccessToken does) and the response
lifetime exceeds the margin - but not in general. -/
theorem refresh_expiry_spec (st : OAuthMgr.ManagerState) (now : Int)
    (r : OAuthMgr.TokenResponse) (writeOk : Bool)
    (stOut : OAuthMgr.ManagerState) (persisted : Bool)
    (h : OAuthMgr.refreshAccessToken st now (.ok r) writeOk = .ok (stOut, persisted)) :
    stOut.tokenExpiry = now + r.expires_in * 1000 ∧
    (st.tokenExpiry - now ≤ OAuthMgr.safetyMarginMs →
      OAuthMgr.safetyMarginMs < r.expires_in * 1000 →
      st.tokenExpiry < stOut.tokenExpiry) := by
  cases hst : st.tokens with
  | none => simp [OAuthMgr.refreshAccessToken, hst] at h
  | some tk =>
    by_cases hrt : tk.refresh_token = ""
    · simp [OAuthMgr.refreshAccessToken, hst, hrt] at h
    · by_cases hat : r.access_token = ""
      · simp [OAuthMgr.refreshAccessToken, hst, hrt, hat] at h
      · simp only [OAuthMgr.refreshAccessToken, hst, if_neg hrt, if_neg hat] at h
        cases h
        refine ⟨rfl, ?_⟩
        intro h1 h2
        simp only [OAuthMgr.safetyMarginMs] at h1 h2
        show st.tokenExpiry < now + r.expires_in * 1000
        omega

/-- Witness for C7 amended: refreshing an expiry of 900000 at time 0 with a
24 hour lifetime yields expiry 86400000, strictly larger. -/
theorem refresh_expiry_spec_witness :
    (86400000 : Int) = 0 + 86400 * 1000 ∧ (900000 : Int) < 86400000 := by
  have h := refresh_expiry_spec
      { tokens := some { access_token := "tokA", refresh_token := "tokR", expires_in := 3600,
                         scope := "devices", token_type := "Bearer", expires_at := some 900000 },
        tokenExpiry := 900000 }
      0
      { access_token := "tokB", refresh_token := "", expires_in := 86400,
        scope := "devices", token_type := "Bearer" }
      true
      { tokens := some { access_token := "tokB", refresh_token := "tokR", expires_in := 86400,
                         scope := "devices", token_type := "Bearer", expires_at := some 86400000 },
        tokenExpiry := 86400000 }
      true rfl
  exact ⟨h.1, h.2 (by decide) (by decide)⟩

/-- C8 counterexample: clearTokens on a state holding an in-memory
credential set while the unlink of the credential file fails (e.g. the file
does not exist, which is exactly how the catch message reads) leaves the
in-memory credential set and expiry in place instead of resetting them. -/
theorem clearTokens_inmemory_cex :
    ((OAuthMgr.clearTokens
        { tokens := some { access_token := "tokA", refresh_token := "tokR", expires_in := 3600,
                           scope := "devices", token_type := "Bearer", expires_at := some 900000 },
          tokenExpiry := 900000 } false).1).tokens ≠ none ∧
    (OAuthMgr.clearTokens
        { tokens := some { access_token := "tokA", refresh_token := "tokR", expires_in := 3600,
                           scope := "devices", token_type := "Bearer", expires_at := some 900000 },
          tokenExpiry := 900000 } false).2 = false := by
  constructor
  · simp [OAuthMgr.clearTokens]
  · rfl

/-- C8 amended: when the unlink of the credential file succeeds, clearTokens
deletes the file and resets the in-memory state to no credentials (tokens
null, expiry zero); when the unlink fails, nothing is deleted and the
in-memory state is left unchanged. -/
theorem clearTokens_spec (st : OAuthMgr.ManagerState) :
    OAuthMgr.clearTokens st true = ({ tokens := none, tokenExpiry := 0 }, true) ∧
    OAuthMgr.clearTokens st false = (st, false) :=
  ⟨rfl, rfl⟩

/-- C9 counterexample: a callback request carrying a vendor error parameter
is fully processed (the flow promise is rejected with the vendor error and a
400 page is served) yet the listener is not closed. -/
theorem listener_open_after_error_cex :
    (Setup.handleCallback "/oauth/callback"
        { code := none, state := none, error := some "access_denied" } "expected"
        (.ok ())).serverClosed = false ∧
    (Setup.handleCallback "/oauth/callback"
        { code := none, state := none, error := some "access_denied" } "expected"
        (.ok ())).settle = some .rejectedVendorError := by
  constructor <;> rfl

/-- C9 amended: the handler closes the listener exactly on the success path,
the one that exchanges the code and resolves the flow; every failure path
(vendor error parameter, state mismatch, missing code, exchange failure)
responds with an error page and rejects the promise but leaves the listener
open (it is closed only by an explicit stop call). -/
theorem listener_close_spec (path : String) (q : Setup.CallbackQuery)
    (expectedState : String) (exchange : Except Unit Unit) :
    (Setup.handleCallback path q expectedState exchange).serverClosed = true ↔
      (Setup.handleCallback path q expectedState exchange).settle =
        some Setup.Settle.resolved := by
  simp only [Setup.handleCallback]
  split_ifs <;> first | simp | (cases exchange <;> simp)

/-- C10: a failure to write the credential file is swallowed by saveTokens,
so the success or failure and the resulting manager state of
refreshAccessToken, exchangeCodeForTokens and getValidAccessToken are
independent of whether the write succeeded, and a refresh with a good
response still succeeds and installs the new access token in memory when
the write fails - a persistence failure is never surfaced. -/
theorem saveTokens_failure_swallowed (st : OAuthMgr.ManagerState) (now : Int)
    (resp : Except (Option Int) OAuthMgr.TokenResponse) (w1 w2 : Bool) :
    (OAuthMgr.refreshAccessToken st now resp w1).map Prod.fst =
      (OAuthMgr.refreshAccessToken st now resp w2).map Prod.fst ∧
    (OAuthMgr.exchangeCodeForTokens now resp w1).map Prod.fst =
      (OAuthMgr.exchangeCodeForTokens now resp w2).map Prod.fst ∧
    OAuthMgr.getValidAccessToken st now resp w1 =
      OAuthMgr.getValidAccessToken st now resp w2 ∧
    (∀ tk r, st.tokens = some tk → tk.refresh_token ≠ "" → resp = .ok r →
      r.access_token ≠ "" →
      OAuthMgr.refreshAccessToken st now resp false =
        .ok ({ tokens := some
                 { access_token := r.access_token,
                   refresh_token := if r.refresh_token = "" then tk.refresh_token
                                    else r.refresh_token,
                   expires_in := r.expires_in, scope := r.scope,
                   token_type := r.token_type,
                   expires_at := some (now + r.expires_in * 1000) },
               tokenExpiry := now + r.expires_in * 1000 }, false)) := by
  refine ⟨?_, ?_, ?_, ?_⟩
  · cases hst : st.tokens with
    | none => simp [OAuthMgr.refreshAccessToken, hst]
    | some tk =>
      cases resp with
      | error s => simp [OAuthMgr.refreshAccessToken, hst]
      | ok r =>
        by_cases hrt : tk.refresh_token = ""
        · simp [OAuthMgr.refreshAccessToken, hst, hrt]
        · by_cases hat : r.access_token = ""
          · simp [OAuthMgr.refreshAccessToken, hst, hrt, hat]
          · simp [OAuthMgr.refreshAccessToken, hst, hrt, hat, Except.map]
  · cases resp with
    | error s => rfl
    | ok r => simp [OAuthMgr.exchangeCodeForTokens, Except.map]
  · cases hst : st.tokens with
    | none => simp [OAuthMgr.getValidAccessToken, hst]
    | some tk =>
      by_cases hle : st.tokenExpiry - now ≤ OAuthMgr.safetyMarginMs
      · cases resp with
        | error s => simp [OAuthMgr.getValidAccessToken, OAuthMgr.refreshAccessToken, hst, hle]
        | ok r =>
          by_cases hrt : tk.refresh_token = ""
          · simp [OAuthMgr.getValidAccessToken, OAuthMgr.refreshAccessToken, hst, hle, hrt]
          · by_cases hat : r.access_token = ""
            · simp [OAuthMgr.getValidAccessToken, OAuthMgr.refreshAccessToken,
                    hst, hle, hrt, hat]
            · simp [OAuthMgr.getValidAccessToken, OAuthMgr.refreshAccessToken,
                    hst, hle, hrt, hat]
      · simp [OAuthMgr.getValidAccessToken, hst, hle]
  · intro tk r htk hrt hresp hat
    subst hresp
    simp [OAuthMgr.refreshAccessToken, htk, hrt, hat, OAuthMgr.saveTokens]

/-- Witness for C10 at a concrete refresh whose file write fails: the call
succeeds, reports the write as not persisted, and the served token set
carries the fresh access token. -/
theorem saveTokens_failure_swallowed_witness :
    OAuthMgr.refreshAccessToken
        { tokens := some { access_token := "tokA", refresh_token := "tokR", expires_in := 3600,
                           scope := "devices", token_type := "Bearer", expires_at := some 900000 },
          tokenExpiry := 900000 }
        0 (.ok { access_token := "tokB", refresh_token := "", expires_in := 86400,
                 scope := "devices", token_type := "Bearer" }) false =
      .ok ({ tokens := some { access_token := "tokB", refresh_token := "tokR", expires_in := 86400,
                              scope := "devices", token_type := "Bearer",
                              expires_at := some 86400000 },
             tokenExpiry := 86400000 }, false) := by
  have h := (saveTokens_failure_swallowed
      { tokens := some { access_token := "tokA", refresh_token := "tokR", expires_in := 3600,
                         scope := "devices", token_type := "Bearer", expires_at := some 900000 },
        tokenExpiry := 900000 }
      0
      (.ok { access_token := "tokB", refresh_token := "", expires_in := 86400,
             scope := "devices", token_type := "Bearer" })
      true false).2.2.2
      { access_token := "tokA", refresh_token := "tokR", expires_in := 3600,
        scope := "devices", token_type := "Bearer", expires_at := some 900000 }
      { access_token := "tokB", refresh_token := "", expires_in := 86400,
        scope := "devices", token_type := "Bearer" }
      rfl (by decide) rfl (by decide)
  exact h

/-- C2: for every executeMainCommand call of the conflict-resolving adapter
whose command dispatch receives an HTTP 409 response, if the re-fetched
device status matches the requested end state (switch already in the
requested on/off state, mode already the requested one, setpoint already
within half a degree), the call resolves successfully rather than
propagating an error. -/
theorem conflict_match_resolves (command capability : String)
    (args : List JsValue) (env : ConflictAdapter.CmdEnv)
    (cur : Option ConflictAdapter.DeviceMain)
    (hclient : env.clientOk = true)
    (hdisp : env.dispatch = .httpError 409)
    (hfetch : env.conflictStatus = .ok cur)
    (hmatch : ConflictAdapter.matchesRequestedEndState command capability args cur = true) :
    ConflictAdapter.executeMainCommand true command capability args env = .ok () := by
  have hdev : ConflictAdapter.executeMainCommand true command capability args env =
      ConflictAdapter.handle409 command capability args env.conflictStatus := by
    simp [ConflictAdapter.executeMainCommand, hclient, hdisp]
  rw [hdev, hfetch]
  by_cases hsw : capability = "switch"
  · subst hsw
    simp only [ConflictAdapter.matchesRequestedEndState, beq_self_eq_true, if_true,
               Bool.or_eq_true, Bool.and_eq_true, beq_iff_eq] at hmatch
    rcases hmatch with ⟨hc, hs⟩ | ⟨hc, hs⟩ <;> subst hc <;>
      simp [ConflictAdapter.handle409, hs]
  · by_cases hac : capability = "airConditionerMode"
    · subst hac
      simp [ConflictAdapter.handle409]
    · by_cases hth : capability = "thermostatCoolingSetpoint"
      · subst hth
        simp [ConflictAdapter.handle409]
      · simp [ConflictAdapter.matchesRequestedEndState, hsw, hac, hth] at hmatch

/-- Witness for C2: an on command answered with 409 while the re-fetched
status already reports the switch on resolves successfully. -/
theorem conflict_match_resolves_witness :
    ConflictAdapter.executeMainCommand true "on" "switch" []
      { statusBefore := .error (), clientOk := true, dispatch := .httpError 409,
        conflictStatus := .ok (some { switchValue := some "on", acMode := none,
                                      autoCleaningMode := none, energySavingOperation := none,
                                      coolingSetpoint := none, temperature := none }),
        statusAfter := .error () } = .ok () := by
  exact conflict_match_resolves "on" "switch" [] _
      (some { switchValue := some "on", acMode := none, autoCleaningMode := none,
              energySavingOperation := none, coolingSetpoint := none, temperature := none })
      rfl rfl rfl (by decide)

/-- C3 counterexample: two setCoolingSetpoint commands with different
arguments (22 then 25) issued 1 second apart: the first dispatches once, but
the second resolves with zero dispatches - it is deduplicated even though
its arguments differ, because the deduplication key ignores arguments.  The
claim that both calls are dispatched is false. -/
theorem dedup_ignores_arguments_cex :
    (CachedAdapter.executeMainCommand CachedAdapter.initialState 0 0 true
        "setCoolingSetpoint" "thermostatCoolingSetpoint" (some [JsValue.num 22])
        { statusFetch := .error (), attempts := fun _ => .success }).dispatches = 1 ∧
    (CachedAdapter.executeMainCommand
        (CachedAdapter.executeMainCommand CachedAdapter.initialState 0 0 true
          "setCoolingSetpoint" "thermostatCoolingSetpoint" (some [JsValue.num 22])
          { statusFetch := .error (), attempts := fun _ => .success }).state
        1000 1000 true
        "setCoolingSetpoint" "thermostatCoolingSetpoint" (some [JsValue.num 25])
        { statusFetch := .error (), attempts := fun _ => .success }).dispatches = 0 ∧
    (CachedAdapter.executeMainCommand
        (CachedAdapter.executeMainCommand CachedAdapter.initialState 0 0 true
          "setCoolingSetpoint" "thermostatCoolingSetpoint" (some [JsValue.num 22])
          { statusFetch := .error (), attempts := fun _ => .success }).state
        1000 1000 true
        "setCoolingSetpoint" "thermostatCoolingSetpoint" (some [JsValue.num 25])
        { statusFetch := .error (), attempts := fun _ => .success }).result = .ok () := by
  refine ⟨rfl, rfl, rfl⟩

/-- C3 amended: deduplication is keyed on (capability, command) only.  A
first call whose first attempt succeeds dispatches exactly once and
resolves; any second call with the same capability and command within the
2 second window - whatever its arguments, equal to the first call's or not -
is skipped: it resolves successfully with zero dispatches and leaves the
state untouched. -/
theorem dedup_window_spec (st : CachedAdapter.AdapterState) (t1 tEnd1 t2 : Int)
    (command capability : String) (args1 args2 : Option (List JsValue))
    (env1 env2 : CachedAdapter.CmdEnv)
    (hexec : st.isExecutingCommand = false)
    (hded : CachedAdapter.dedupHit st command capability t1 = false)
    (hcap : (capability == "switch" && (command == "on" || command == "off")) = false)
    (hfirst : env1.attempts 1 = .success) :
    (CachedAdapter.executeMainCommand st t1 tEnd1 true command capability args1
        env1).dispatches = 1 ∧
    (CachedAdapter.executeMainCommand st t1 tEnd1 true command capability args1
        env1).result = .ok () ∧
    (t2 - t1 < CachedAdapter.COMMAND_DEDUPLICATION_WINDOW →
      CachedAdapter.executeMainCommand
          (CachedAdapter.executeMainCommand st t1 tEnd1 true command capability args1
            env1).state
          t2 t2 true command capability args2 env2 =
        { result := .ok (), dispatches := 0, delays := [],
          state := (CachedAdapter.executeMainCommand st t1 tEnd1 true command capability
            args1 env1).state }) := by
  have h1 : CachedAdapter.executeMainCommand st t1 tEnd1 true command capability args1 env1 =
      { result := .ok (), dispatches := 1, delays := [],
        state := CachedAdapter.finallyUpdate command capability t1 tEnd1
          (CachedAdapter.forceStatusRefresh { st with isExecutingCommand := true }) } := by
    simp [CachedAdapter.executeMainCommand, CachedAdapter.executeCommandWithRetry,
          CachedAdapter.retryFrom, CachedAdapter.MAX_RETRIES, CachedAdapter.dispatchesOf,
          hexec, hded, hcap, hfirst]
  refine ⟨by rw [h1], by rw [h1], ?_⟩
  intro hlt
  rw [h1]
  have hdedup2 : CachedAdapter.dedupHit
      { lastCommandTime := tEnd1, isExecutingCommand := false,
        lastCommand := some { command := command, capability := capability, timestamp := t1 },
        lastStatusUpdate := 0, cachedStatus := none }
      command capability t2 = true := by
    simp [CachedAdapter.dedupHit, hlt]
  simp [CachedAdapter.executeMainCommand, CachedAdapter.finallyUpdate,
        CachedAdapter.forceStatusRefresh, hdedup2]

/-- Witness for C3 amended at a concrete pair of calls, the second with the
same arguments as the first, 1 second later: one dispatch then a successful
zero-dispatch skip. -/
theorem dedup_window_spec_witness :
    (CachedAdapter.executeMainCommand CachedAdapter.initialState 0 0 true
        "setCoolingSetpoint" "thermostatCoolingSetpoint" (some [JsValue.num 22])
        { statusFetch := .error (), attempts := fun _ => .success }).dispatches = 1 ∧
    CachedAdapter.executeMainCommand
        (CachedAdapter.executeMainCommand CachedAdapter.initialState 0 0 true
          "setCoolingSetpoint" "thermostatCoolingSetpoint" (some [JsValue.num 22])
          { statusFetch := .error (), attempts := fun _ => .success }).state
        1000 1000 true
        "setCoolingSetpoint" "thermostatCoolingSetpoint" (some [JsValue.num 22])
        { statusFetch := .error (), attempts := fun _ => .success } =
      { result := .ok (), dispatches := 0, delays := [],
        state := (CachedAdapter.executeMainCommand CachedAdapter.initialState 0 0 true
          "setCoolingSetpoint" "thermostatCoolingSetpoint" (some [JsValue.num 22])
          { statusFetch := .error (), attempts := fun _ => .success }).state } := by
  constructor
  · exact (dedup_window_spec CachedAdapter.initialState 0 0 1000
      "setCoolingSetpoint" "thermostatCoolingSetpoint"
      (some [JsValue.num 22]) (some [JsValue.num 22])
      { statusFetch := .error (), attempts := fun _ => .success }
      { statusFetch := .error (), attempts := fun _ => .success }
      rfl rfl rfl rfl).1
  · exact (dedup_window_spec CachedAdapter.initialState 0 0 1000
      "setCoolingSetpoint" "thermostatCoolingSetpoint"
      (some [JsValue.num 22]) (some [JsValue.num 22])
      { statusFetch := .error (), attempts := fun _ => .success }
      { statusFetch := .error (), attempts := fun _ => .success }
      rfl rfl rfl rfl).2.2 (by decide)

/-- C4: a switch on/off command issued when the current device status
(served by getStatus from the cache or a fresh fetch) already reports the
requested state resolves successfully with zero dispatches to the command
endpoint; only the bookkeeping of the finally block is recorded. -/
theorem switch_short_circuit_spec (st st1 : CachedAdapter.AdapterState)
    (tStart tEnd : Int) (command : String) (args : Option (List JsValue))
    (env : CachedAdapter.CmdEnv) (info : CachedAdapter.PlatformStatusInfo)
    (hexec : st.isExecutingCommand = false)
    (hded : CachedAdapter.dedupHit st command "switch" tStart = false)
    (hcmd : command = "on" ∨ command = "off")
    (hstatus : CachedAdapter.getStatus { st with isExecutingCommand := true } tStart
        env.statusFetch = .ok (info, st1))
    (hmatch : info.active = (command == "on")) :
    CachedAdapter.executeMainCommand st tStart tEnd true command "switch" args env =
      { result := .ok (), dispatches := 0, delays := [],
        state := CachedAdapter.finallyUpdate command "switch" tStart tEnd st1 } := by
  rcases hcmd with hc | hc <;> subst hc <;>
    simp [CachedAdapter.executeMainCommand, CachedAdapter.handleSwitchCommand,
          hexec, hded, hstatus, hmatch]

/-- Witness for C4: an on command with the fetched status reporting the
switch on resolves with zero dispatches (even though the command endpoint
would fail if it were called). -/
theorem switch_short_circuit_spec_witness :
    CachedAdapter.executeMainCommand CachedAdapter.initialState 0 0 true "on" "switch" none
        { statusFetch := .ok (some { airConditionerMode := none, coolingSetpoint := none,
                                     temperature := none, humidity := none,
                                     switchValue := some "on" }),
          attempts := fun _ => .otherError } =
      { result := .ok (), dispatches := 0, delays := [],
        state := CachedAdapter.finallyUpdate "on" "switch" 0 0
          { lastCommandTime := 0, isExecutingCommand := true, lastCommand := none,
            lastStatusUpdate := 0,
            cachedStatus := some { mode := none, targetTemperature := none,
                                   currentTemperature := none, currentHumidity := none,
                                   active := true } } } := by
  exact switch_short_circuit_spec CachedAdapter.initialState
      { lastCommandTime := 0, isExecutingCommand := true, lastCommand := none,
        lastStatusUpdate := 0,
        cachedStatus := some { mode := none, targetTemperature := none,
                               currentTemperature := none, currentHumidity := none,
                               active := true } }
      0 0 "on" none
      { statusFetch := .ok (some { airConditionerMode := none, coolingSetpoint := none,
                                   temperature := none, humidity := none,
                                   switchValue := some "on" }),
        attempts := fun _ => .otherError }
      { mode := none, targetTemperature := none, currentTemperature := none,
        currentHumidity := none, active := true }
      rfl rfl (Or.inl rfl) rfl rfl

/-- C5 counterexample: a dispatch answered with HTTP 401 on every attempt is
re-sent by the retry loop - three dispatches happen before the last error is
thrown - contradicting the claim that 401 (like 429) is never re-sent. -/
theorem retry_resends_401_cex :
    CachedAdapter.executeCommandWithRetry "on" "switch" none
        (fun _ => CachedAdapter.AttemptOutcome.httpError 401) =
      { result := .error (.commandFailed (.httpError 401)), dispatches := 3,
        delays := [1000, 2000] } := by
  rfl

/-- C5 amended: the retry loop special-cases only HTTP 409 - a 409 returns
(ambiguous, not executed) after that single dispatch with no retry; every
other per-attempt failure, including HTTP 401 and 429, is retried with
exponential backoff (delays 1000 then 2000 ms) until the bound of 3 attempts
is exhausted, after which the last error is thrown to the caller. -/
theorem retry_loop_spec (command capability : String)
    (args : Option (List JsValue))
    (attempts : Nat → CachedAdapter.AttemptOutcome)
    (o : CachedAdapter.AttemptOutcome) :
    (attempts 1 = .httpError 409 →
      CachedAdapter.executeCommandWithRetry command capability args attempts =
        { result := .ok false, dispatches := 1, delays := [] }) ∧
    ((∀ i, attempts i = o) → o ≠ .success → o ≠ .httpError 409 →
      CachedAdapter.executeCommandWithRetry command capability args attempts =
        { result := .error (.commandFailed o),
          dispatches := 3 * CachedAdapter.dispatchesOf o,
          delays := [1000, 2000] }) := by
  constructor
  · intro h
    simp [CachedAdapter.executeCommandWithRetry, CachedAdapter.retryFrom,
          CachedAdapter.MAX_RETRIES, CachedAdapter.dispatchesOf, h]
  · intro hall hs h9
    have h1 := hall 1
    have h2 := hall 2
    have h3 := hall 3
    simp only [CachedAdapter.executeCommandWithRetry, CachedAdapter.MAX_RETRIES,
               CachedAdapter.retryFrom, CachedAdapter.RETRY_DELAY, h1, h2, h3,
               if_neg hs, if_neg h9]
    simp [CachedAdapter.retryFrom, if_neg hs, if_neg h9, h2, h3]
    omega

/-- Witness for C5 amended: a first-attempt 409 stops after one dispatch; a
429 on every attempt is dispatched three times with backoff 1000 and 2000 ms
and then surfaced. -/
theorem retry_loop_spec_witness :
    CachedAdapter.executeCommandWithRetry "on" "switch" none
        (fun _ => CachedAdapter.AttemptOutcome.httpError 409) =
      { result := .ok false, dispatches := 1, delays := [] } ∧
    CachedAdapter.executeCommandWithRetry "setCoolingSetpoint"
        "thermostatCoolingSetpoint" (some [JsValue.num 22])
        (fun _ => CachedAdapter.AttemptOutcome.httpError 429) =
      { result := .error (.commandFailed (.httpError 429)),
        dispatches := 3 * CachedAdapter.dispatchesOf (.httpError 429),
        delays := [1000, 2000] } := by
  constructor
  · exact (retry_loop_spec "on" "switch" none
      (fun _ => CachedAdapter.AttemptOutcome.httpError 409) .otherError).1 rfl
  · exact (retry_loop_spec "setCoolingSetpoint" "thermostatCoolingSetpoint"
      (some [JsValue.num 22]) (fun _ => CachedAdapter.AttemptOutcome.httpError 429)
      (.httpError 429)).2 (fun i => rfl) (by decide) (by decide)

/-- C6 counterexample: a setCoolingSetpoint command whose dispatch fails
with HTTP 500 on all three attempts throws, and the cached status snapshot
of the adapter survives the call untouched (its freshness timestamp too):
the cache is not invalidated after this failed execution attempt, so the
next getStatus within the freshness window serves the pre-command
snapshot. -/
theorem cache_not_invalidated_on_failure_cex :
    (CachedAdapter.executeMainCommand
        { lastCommandTime := 0, isExecutingCommand := false, lastCommand := none,
          lastStatusUpdate := 0,
          cachedStatus := some { mode := some "cool", targetTemperature := some 22,
                                 currentTemperature := some 25, currentHumidity := some 50,
                                 active := true } }
        0 0 true "setCoolingSetpoint" "thermostatCoolingSetpoint" (some [JsValue.num 22])
        { statusFetch := .error (), attempts := fun _ => .httpError 500 }).result =
      .error (.commandFailed (.httpError 500)) ∧
    (CachedAdapter.executeMainCommand
        { lastCommandTime := 0, isExecutingCommand := false, lastCommand := none,
          lastStatusUpdate := 0,
          cachedStatus := some { mode := some "cool", targetTemperature := some 22,
                                 currentTemperature := some 25, currentHumidity := some 50,
                                 active := true } }
        0 0 true "setCoolingSetpoint" "thermostatCoolingSetpoint" (some [JsValue.num 22])
        { statusFetch := .error (), attempts := fun _ => .httpError 500 }).state.cachedStatus =
      some { mode := some "cool", targetTemperature := some 22,
             currentTemperature := some 25, currentHumidity := some 50,
             active := true } := by
  constructor <;> rfl

/-- C6 amended: on the plain dispatch path (a command other than a switch
on/off), the cached snapshot is invalidated (cache cleared, timestamp reset)
exactly when the retry call returns normally - success or ambiguous 409;
when the retry call throws after exhausting its attempts, the error
propagates and the cache and freshness timestamp are left exactly as they
were before the call, so the next getStatus may serve the pre-command
snapshot. -/
theorem cache_invalidation_spec (st : CachedAdapter.AdapterState)
    (tStart tEnd : Int) (command capability : String)
    (args : Option (List JsValue)) (env : CachedAdapter.CmdEnv)
    (hexec : st.isExecutingCommand = false)
    (hded : CachedAdapter.dedupHit st command capability tStart = false)
    (hcap : (capability == "switch" && (command == "on" || command == "off")) = false) :
    (∀ b, (CachedAdapter.executeCommandWithRetry command capability args
        env.attempts).result = .ok b →
      (CachedAdapter.executeMainCommand st tStart tEnd true command capability args
        env).state.cachedStatus = none ∧
      (CachedAdapter.executeMainCommand st tStart tEnd true command capability args
        env).state.lastStatusUpdate = 0) ∧
    (∀ e, (CachedAdapter.executeCommandWithRetry command capability args
        env.attempts).result = .error e →
      (CachedAdapter.executeMainCommand st tStart tEnd true command capability args
        env).result = .error e ∧
      (CachedAdapter.executeMainCommand st tStart tEnd true command capability args
        env).state.cachedStatus = st.cachedStatus ∧
      (CachedAdapter.executeMainCommand st tStart tEnd true command capability args
        env).state.lastStatusUpdate = st.lastStatusUpdate) := by
  constructor
  · intro b hb
    simp [CachedAdapter.executeMainCommand, CachedAdapter.finallyUpdate,
          CachedAdapter.forceStatusRefresh, hexec, hded, hcap, hb]
  · intro e he
    simp [CachedAdapter.executeMainCommand, CachedAdapter.finallyUpdate,
          CachedAdapter.forceStatusRefresh, hexec, hded, hcap, he]

/-- Witness for C6 amended: with a succeeding dispatch the cache is cleared;
with a dispatch failing on all attempts it is kept. -/
theorem cache_invalidation_spec_witness :
    (CachedAdapter.executeMainCommand
        { lastCommandTime := 0, isExecutingCommand := false, lastCommand := none,
          lastStatusUpdate := 0,
          cachedStatus := some { mode := some "cool", targetTemperature := some 22,
                                 currentTemperature := some 25, currentHumidity := some 50,
                                 active := true } }
        0 0 true "setCoolingSetpoint" "thermostatCoolingSetpoint" (some [JsValue.num 22])
        { statusFetch := .error (), attempts := fun _ => .success }).state.cachedStatus =
      none ∧
    (CachedAdapter.executeMainCommand
        { lastCommandTime := 0, isExecutingCommand := false, lastCommand := none,
          lastStatusUpdate := 0,
          cachedStatus := some { mode := some "cool", targetTemperature := some 22,
                                 currentTemperature := some 25, currentHumidity := some 50,
                                 active := true } }
        0 0 true "setCoolingSetpoint" "thermostatCoolingSetpoint" (some [JsValue.num 22])
        { statusFetch := .error (), attempts := fun _ => .httpError 503 }).state.cachedStatus =
      some { mode := some "cool", targetTemperature := some 22,
             currentTemperature := some 25, currentHumidity := some 50,
             active := true } := by
  constructor
  · exact ((cache_invalidation_spec
      { lastCommandTime := 0, isExecutingCommand := false, lastCommand := none,
        lastStatusUpdate := 0,
        cachedStatus := some { mode := some "cool", targetTemperature := some 22,
                               currentTemperature := some 25, currentHumidity := some 50,
                               active := true } }
      0 0 "setCoolingSetpoint" "thermostatCoolingSetpoint" (some [JsValue.num 22])
      { statusFetch := .error (), attempts := fun _ => .success }
      rfl rfl rfl).1 true rfl).1
  · exact ((cache_invalidation_spec
      { lastCommandTime := 0, isExecutingCommand := false, lastCommand := none,
        lastStatusUpdate := 0,
        cachedStatus := some { mode := some "cool", targetTemperature := some 22,
                               currentTemperature := some 25, currentHumidity := some 50,
                               active := true } }
      0 0 "setCoolingSetpoint" "thermostatCoolingSetpoint" (some [JsValue.num 22])
      { statusFetch := .error (), attempts := fun _ => .httpError 503 }
      rfl rfl rfl).2 (.commandFailed (.httpError 503)) rfl).2.1
